import Mathlib

/-!
Verification of the interaction loop of the Chess Analyzer program (main.py).

The program is a pygame front end over the python-chess rules library and a
UCI engine subprocess.  Following the specification, the chess-rules library
and the engine are external collaborators: they are modelled by the abstract
interface `RulesApi` (piece_at / legal-move membership / push / side to move),
and engine results enter the state machine as parameters of `analysis_tick`.
Everything else — the interaction state, the coordinate mapping, the
promotion dialog, the mouse-button handler — is translated directly from the
source.  A small executable instance `demo_api` (the standard starting
position and one promotion position, with their true chess legality for every
query the concrete traces make) is used for concrete witnesses.
-/

/-! ### Constants (main.py lines 11-14) -/

def WIDTH : Int := 850

def HEIGHT : Int := 800

def BOARD_SIZE : Int := 800

def SQUARE_SIZE : Int := BOARD_SIZE / 8

def EVAL_BAR_WIDTH : Int := 50

/-! ### python-chess value types used by the source -/

/-- python-chess piece-type constant PAWN = 1. -/
def PAWN : Nat := 1

/-- python-chess piece-type constant KNIGHT = 2. -/
def KNIGHT : Nat := 2

/-- python-chess piece-type constant BISHOP = 3. -/
def BISHOP : Nat := 3

/-- python-chess piece-type constant ROOK = 4. -/
def ROOK : Nat := 4

/-- python-chess piece-type constant QUEEN = 5. -/
def QUEEN : Nat := 5

/-- python-chess piece-type constant KING = 6. -/
def KING : Nat := 6

/-- A chess piece as exposed by python-chess: a piece type (1..6) and a
color (true = White, matching chess.WHITE = True). -/
structure Piece where
  piece_type : Nat
  color : Bool
deriving DecidableEq

/-- chess.Move: from-square, to-square, optional promotion piece type.
Squares are indices 0..63 as in python-chess. -/
structure Move where
  from_square : Nat
  to_square : Nat
  promotion : Option Nat
deriving DecidableEq

/-- chess.square_file: sq & 7. -/
def square_file (sq : Nat) : Nat := sq % 8

/-- chess.square_rank: sq >> 3. -/
def square_rank (sq : Nat) : Nat := sq / 8

/-- chess.square(file_index, rank_index) = rank_index * 8 + file_index. -/
def chess_square (file rank : Nat) : Nat := rank * 8 + file

/-- Python truthiness of a chess.Move: a Move is falsy exactly when
from_square, to_square are 0 and no promotion (the null move).  Used by the
guard `not promotion_pending` in the source. -/
def move_truthy (m : Move) : Bool :=
  !(m.from_square == 0 && m.to_square == 0 && m.promotion == none)

/-! ### The rules collaborator interface (spec section 4.1)

python-chess is an external library; the source uses exactly these four
capabilities of a board: `board.piece_at(square)`, `move in
board.legal_moves`, `board.push(move)` and (implicitly, through legality)
`board.turn`. -/

structure RulesApi (B : Type) where
  piece_at : B → Nat → Option Piece
  is_legal : B → Move → Bool
  push : B → Move → B
  turn : B → Bool

/-- Soundness facts about any chess-rules implementation that the proofs
need: a legal move always moves a piece of the side to move.  True of
python-chess (pseudo-legality requires an own-color piece on the
from-square). -/
structure RulesSound {B : Type} (api : RulesApi B) : Prop where
  legal_own : ∀ b m, api.is_legal b m = true →
    ∃ p, api.piece_at b m.from_square = some p ∧ p.color = api.turn b

/-! ### Interaction state (main.py lines 61, 69-73, 300-302) -/

/-- The mutable session state of the interaction loop: the board plus the
globals selected_square, promotion_pending, show_promotion_dialog,
aggressive_mate, white_at_bottom and the loop variables best_move and
evaluation.  The source stores evaluation as a float (score / 100); it is
modelled as the raw integer score since no verified property depends on
its value. -/
structure GameState (B : Type) where
  board : B
  selected_square : Option Nat
  promotion_pending : Option Move
  show_promotion_dialog : Bool
  best_move : Option Move
  aggressive_mate : Bool
  white_at_bottom : Bool
  evaluation : Int
deriving DecidableEq

/-- Initial state: board = chess.Board() (line 61), flags from lines 69-73,
best_move = None and evaluation = 0 from lines 300-302. -/
def initial_state {B : Type} (b : B) : GameState B :=
  { board := b
    selected_square := none
    promotion_pending := none
    show_promotion_dialog := false
    best_move := none
    aggressive_mate := false
    white_at_bottom := true
    evaluation := 0 }

/-! ### is_promotion_move (main.py lines 198-206) -/

/-- is_promotion_move: true when the piece at the from-square is a pawn and
the to-square is on rank 7 (White) or rank 0 (Black).  No other condition is
checked (in particular not the move distance or legality). -/
def is_promotion_move {B : Type} (api : RulesApi B) (b : B) (move : Move) : Bool :=
  match api.piece_at b move.from_square with
  | none => false
  | some piece =>
    piece.piece_type == PAWN &&
    ((piece.color == true && square_rank move.to_square == 7) ||
     (piece.color == false && square_rank move.to_square == 0))

/-! ### Promotion dialog geometry and click handling (main.py lines 249-294) -/

/-- dialog_x = (WIDTH - 4 * SQUARE_SIZE) // 2 (line 257). -/
def dialog_x : Int := (WIDTH - 4 * SQUARE_SIZE) / 2

/-- dialog_y = (HEIGHT - SQUARE_SIZE) // 2 (line 258). -/
def dialog_y : Int := (HEIGHT - SQUARE_SIZE) / 2

/-- The inclusive bounds test of lines 261-262:
dialog_x <= pos[0] <= dialog_x + dialog_width and
dialog_y <= pos[1] <= dialog_y + dialog_height. -/
def in_dialog_bounds (pos : Int × Int) : Bool :=
  decide (dialog_x ≤ pos.1) && decide (pos.1 ≤ dialog_x + 4 * SQUARE_SIZE) &&
  decide (dialog_y ≤ pos.2) && decide (pos.2 ≤ dialog_y + SQUARE_SIZE)

/-- promotion_pieces = [chess.QUEEN, chess.ROOK, chess.BISHOP, chess.KNIGHT]
(line 266). -/
def promotion_pieces : List Nat := [QUEEN, ROOK, BISHOP, KNIGHT]

/-- piece_index = (pos[0] - dialog_x) // SQUARE_SIZE (line 265), with Python
floor division. -/
def dialog_piece_index (pos : Int × Int) : Int :=
  (pos.1 - dialog_x).fdiv SQUARE_SIZE

/-- reset_promotion_state (lines 289-294): clears promotion_pending,
show_promotion_dialog and selected_square together. -/
def reset_promotion_state {B : Type} (st : GameState B) : GameState B :=
  { st with promotion_pending := none
            show_promotion_dialog := false
            selected_square := none }

/-- The full move built on lines 270-274: the pending move completed with
the promotion piece selected by the clicked icon,
promotion_pieces[piece_index]. -/
def promotion_choice_move (pm : Move) (pos : Int × Int) : Move :=
  { from_square := pm.from_square
    to_square := pm.to_square
    promotion := some (promotion_pieces.getD (dialog_piece_index pos).toNat 0) }

/-- handle_promotion_click (lines 249-285).  Returns the Python return value
(whether the click was consumed) together with the updated state.  The
False-returning paths leave the state untouched, exactly as in the source
(no global is assigned before a `return False`). -/
def handle_promotion_click {B : Type} (api : RulesApi B) (st : GameState B)
    (pos : Int × Int) : Bool × GameState B :=
  match st.promotion_pending with
  | none => (false, st)
  | some pending =>
    if !st.show_promotion_dialog || !move_truthy pending then (false, st)
    else if in_dialog_bounds pos then
      if 0 ≤ dialog_piece_index pos ∧ dialog_piece_index pos < 4 then
        let promotion_move : Move := promotion_choice_move pending pos
        let b :=
          if api.is_legal st.board promotion_move then
            api.push st.board promotion_move
          else st.board
        (true, reset_promotion_state { st with board := b })
      else (false, st)
    else (false, st)

/-! ### Screen-to-square coordinate mapping (main.py lines 322-333) -/

/-- col = (pos[0] - EVAL_BAR_WIDTH) // SQUARE_SIZE (line 323, Python floor
division), complemented on line 328 when the board is flipped. -/
def click_col (pos : Int × Int) (white_at_bottom : Bool) : Int :=
  if white_at_bottom then (pos.1 - EVAL_BAR_WIDTH).fdiv SQUARE_SIZE
  else 7 - (pos.1 - EVAL_BAR_WIDTH).fdiv SQUARE_SIZE

/-- row = 7 - pos[1] // SQUARE_SIZE (line 324), complemented on line 329
when the board is flipped. -/
def click_row (pos : Int × Int) (white_at_bottom : Bool) : Int :=
  if white_at_bottom then 7 - pos.2.fdiv SQUARE_SIZE
  else 7 - (7 - pos.2.fdiv SQUARE_SIZE)

/-- The coordinate mapping of the MOUSEBUTTONDOWN handler: the square is
formed by chess.square(col, row) only when both col and row lie in 0..7
(the bounds test of line 332); an out-of-board click maps to none and the
handler ignores it. -/
def click_square (pos : Int × Int) (white_at_bottom : Bool) : Option Nat :=
  if 0 ≤ click_col pos white_at_bottom ∧ click_col pos white_at_bottom < 8 ∧
     0 ≤ click_row pos white_at_bottom ∧ click_row pos white_at_bottom < 8 then
    some (chess_square (click_col pos white_at_bottom).toNat
                       (click_row pos white_at_bottom).toNat)
  else none

/-! ### The MOUSEBUTTONDOWN handler (main.py lines 316-355) -/

/-- The board-square handling of lines 322-355 (everything after the
promotion-dialog check): maps the click to a square, selects it when nothing
is selected, and otherwise builds Move(selected_square, square) and either
opens the promotion dialog (without touching selected_square), pushes a
legal move (clearing best_move and the selection), or deselects. -/
def board_click {B : Type} (api : RulesApi B) (st : GameState B)
    (pos : Int × Int) : GameState B :=
  match click_square pos st.white_at_bottom with
  | none => st
  | some square =>
    match st.selected_square with
    | none => { st with selected_square := some square }
    | some sel =>
      let move : Move := { from_square := sel, to_square := square, promotion := none }
      if is_promotion_move api st.board move then
        { st with promotion_pending := some move, show_promotion_dialog := true }
      else if api.is_legal st.board move then
        { st with board := api.push st.board move
                  best_move := none
                  selected_square := none }
      else
        { st with selected_square := none }

/-- The full mouse-button-down event handling of the main loop.  When the
promotion dialog is open, handle_promotion_click runs first; only a True
return consumes the event (the `continue` on line 320), otherwise execution
falls through to the board-square handling below it, with the globals
unchanged. -/
def handle_mousebuttondown {B : Type} (api : RulesApi B) (st : GameState B)
    (pos : Int × Int) : GameState B :=
  let pr := if st.show_promotion_dialog then handle_promotion_click api st pos
            else (false, st)
  if pr.1 then pr.2
  else board_click api st pos

/-! ### The periodic analysis tick (main.py lines 383-389) -/

/-- The analysis tick: the engine is external, so its reported score and
best move are parameters.  The tick overwrites evaluation and best_move and
touches nothing else. -/
def analysis_tick {B : Type} (engine_best : Option Move) (score : Int)
    (st : GameState B) : GameState B :=
  { st with evaluation := score, best_move := engine_best }

/-! ### Shutdown control flow (main.py lines 297-405)

The script tail is `while running: ...` followed by the straight-line
statements `pygame.quit()` and `engine.quit()`; there is no try/finally
around the loop.  Python executes statements after a while loop only when
the loop terminates normally; an uncaught exception raised in the loop body
propagates past them and ends the process. -/

/-- How the main loop can end: the condition becomes false after a
pygame.QUIT event sets running = False, or an exception escapes the loop
body (for example from a failed engine query on line 386). -/
inductive LoopExit where
  | quit_event
  | exception
deriving DecidableEq

/-- Whether the `engine.quit()` statement on line 404 executes, as a function
of how the loop ended: it is straight-line code after the loop with no
try/finally, so it runs exactly on normal termination. -/
def engine_quit_called : LoopExit → Bool
  | .quit_event => true
  | .exception => false

/-! ### A concrete rules instance for witnesses

Two concrete positions with their genuine chess legality for every query the
concrete traces make: the standard starting position (whose full legal-move
set is the 16 pawn advances plus 4 knight moves encoded below) and a
promotion position with a White pawn on e7 (square 52), White king e1
(square 4) and Black king a8 (square 56), White to move. -/

/-- Piece types of the White back rank by file: R N B Q K B N R. -/
def back_rank_type (f : Nat) : Nat :=
  [ROOK, KNIGHT, BISHOP, QUEEN, KING, BISHOP, KNIGHT, ROOK].getD f 0

/-- Piece placement of the standard starting position. -/
def start_piece_at (sq : Nat) : Option Piece :=
  if sq < 8 then some ⟨back_rank_type sq, true⟩
  else if sq < 16 then some ⟨PAWN, true⟩
  else if sq < 48 then none
  else if sq < 56 then some ⟨PAWN, false⟩
  else if sq < 64 then some ⟨back_rank_type (sq % 8), false⟩
  else none

/-- The 20 legal moves of the starting position: each White pawn one or two
squares forward, and the four knight moves. -/
def start_legal (m : Move) : Bool :=
  m.promotion == none &&
  ((decide (8 ≤ m.from_square) && decide (m.from_square < 16) &&
    (m.to_square == m.from_square + 8 || m.to_square == m.from_square + 16)) ||
   (m.from_square == 1 && (m.to_square == 16 || m.to_square == 18)) ||
   (m.from_square == 6 && (m.to_square == 21 || m.to_square == 23)))

/-- Piece placement of the promotion position: White pawn e7, White king e1,
Black king a8. -/
def promo7_piece_at (sq : Nat) : Option Piece :=
  if sq = 52 then some ⟨PAWN, true⟩
  else if sq = 4 then some ⟨KING, true⟩
  else if sq = 56 then some ⟨KING, false⟩
  else none

/-- Legal moves of the promotion position: the four promotions of the e7
pawn to e8 and the five king moves from e1. -/
def promo7_legal (m : Move) : Bool :=
  (m.from_square == 52 && m.to_square == 60 &&
   (m.promotion == some QUEEN || m.promotion == some ROOK ||
    m.promotion == some BISHOP || m.promotion == some KNIGHT)) ||
  (m.from_square == 4 && m.promotion == none &&
   (m.to_square == 3 || m.to_square == 5 || m.to_square == 11 ||
    m.to_square == 12 || m.to_square == 13))

/-- Concrete boards: the two named positions and formal pushed states (the
traces below end right after a push, so pushed boards are never queried). -/
inductive DemoBoard where
  | start
  | promo7
  | pushed (b : DemoBoard) (m : Move)
deriving DecidableEq

def demo_piece_at : DemoBoard → Nat → Option Piece
  | .start, sq => start_piece_at sq
  | .promo7, sq => promo7_piece_at sq
  | .pushed _ _, _ => none

def demo_legal : DemoBoard → Move → Bool
  | .start, m => start_legal m
  | .promo7, m => promo7_legal m
  | .pushed _ _, _ => false

def demo_turn : DemoBoard → Bool
  | .start => true
  | .promo7 => true
  | .pushed b _ => !demo_turn b

def demo_api : RulesApi DemoBoard :=
  { piece_at := demo_piece_at
    is_legal := demo_legal
    push := DemoBoard.pushed
    turn := demo_turn }

/-! ### Concrete interaction traces used by witnesses and counterexamples

Pixel geometry (white at bottom): x in [450, 550) is file 4 (the e-file);
y in [100, 200) is rank 6 (e7 = square 52), y in [0, 100) rank 7 (e8 = 60),
y in [600, 700) rank 1 (e2 = 12), y in [400, 500) rank 3 (e4 = 28),
y in [700, 800) rank 0 (e1 = 4), y in [300, 400) rank 4 (e5 = 36).
The dialog occupies x in [225, 625], y in [350, 450]. -/

/-- Start position, e7 clicked: the code selects square 52 although it holds
a Black pawn and White is to move. -/
def trace_sel_e7 : GameState DemoBoard :=
  handle_mousebuttondown demo_api (initial_state DemoBoard.start) (500, 150)

/-- Then e1 clicked: Move(52, 4) has a pawn on its from-square and to-rank 0,
so the promotion dialog opens (pending e7e1) with square 52 still selected. -/
def trace_dialog_e7e1 : GameState DemoBoard :=
  handle_mousebuttondown demo_api trace_sel_e7 (500, 750)

/-- From trace_sel_e7, e2 clicked at (500, 650): Move(52, 12) is neither
promotion-shaped nor legal, so the click merely deselects, and the
interaction is back to the idle shape. -/
def trace2_desel : GameState DemoBoard :=
  handle_mousebuttondown demo_api trace_sel_e7 (500, 650)

/-- Then e2 clicked again: nothing is selected, so square 12 (e2, a White
pawn) becomes selected. -/
def trace3_sel_e2 : GameState DemoBoard :=
  handle_mousebuttondown demo_api trace2_desel (500, 650)

/-- Then e4 clicked at (500, 460): Move(12, 28) = e2e4 is legal and is
pushed. -/
def trace4_pushed : GameState DemoBoard :=
  handle_mousebuttondown demo_api trace3_sel_e2 (500, 460)

/-- Start position, e2 clicked: square 12 selected. -/
def trace_sel_e2 : GameState DemoBoard :=
  handle_mousebuttondown demo_api (initial_state DemoBoard.start) (500, 650)

/-- Promotion position, e7 clicked: square 52 (White pawn) selected. -/
def promo_sel_e7 : GameState DemoBoard :=
  handle_mousebuttondown demo_api (initial_state DemoBoard.promo7) (500, 150)

/-- Then e8 clicked: Move(52, 60) is promotion-shaped, the dialog opens with
pending e7e8. -/
def promo_dialog : GameState DemoBoard :=
  handle_mousebuttondown demo_api promo_sel_e7 (500, 50)

/-- An analysis tick while the dialog is open: the engine reports the legal
move e1d1 = Move(4, 3) as its suggestion, which becomes best_move. -/
def promo_dialog_ticked : GameState DemoBoard :=
  analysis_tick (some ⟨4, 3, none⟩) 0 promo_dialog

/-! ### Helper lemmas -/

lemma SQUARE_SIZE_eq : SQUARE_SIZE = 100 := by decide

lemma EVAL_BAR_WIDTH_eq : EVAL_BAR_WIDTH = 50 := by decide

/-- Every False-returning path of handle_promotion_click leaves the state
untouched; the True-returning path resets the promotion state after the
legality-guarded push of the completed move. -/
lemma promo_click_cases {B : Type} (api : RulesApi B) (st : GameState B)
    (pos : Int × Int) :
    handle_promotion_click api st pos = (false, st) ∨
    ∃ pm, st.promotion_pending = some pm ∧ st.show_promotion_dialog = true ∧
      in_dialog_bounds pos = true ∧
      0 ≤ dialog_piece_index pos ∧ dialog_piece_index pos < 4 ∧
      handle_promotion_click api st pos =
        (true, reset_promotion_state
          { st with board :=
              if api.is_legal st.board (promotion_choice_move pm pos) then
                api.push st.board (promotion_choice_move pm pos)
              else st.board }) := by
  unfold handle_promotion_click
  cases hp : st.promotion_pending with
  | none => exact Or.inl rfl
  | some pm =>
    dsimp only
    by_cases hg : (!st.show_promotion_dialog || !move_truthy pm) = true
    · rw [if_pos hg]; exact Or.inl rfl
    · rw [if_neg hg]
      have hdlg : st.show_promotion_dialog = true := by
        revert hg; cases st.show_promotion_dialog <;> simp
      by_cases hin : in_dialog_bounds pos = true
      · rw [if_pos hin]
        by_cases hi : 0 ≤ dialog_piece_index pos ∧ dialog_piece_index pos < 4
        · rw [if_pos hi]
          exact Or.inr ⟨pm, rfl, hdlg, hin, hi.1, hi.2, rfl⟩
        · rw [if_neg hi]; exact Or.inl rfl
      · rw [if_neg hin]; exact Or.inl rfl

/-- A click outside the dialog bounds is never consumed by
handle_promotion_click and leaves the state untouched. -/
lemma promo_click_outside {B : Type} (api : RulesApi B) (st : GameState B)
    (pos : Int × Int) (h : in_dialog_bounds pos = false) :
    handle_promotion_click api st pos = (false, st) := by
  rcases promo_click_cases api st pos with hc | ⟨pm, _, _, hin, _⟩
  · exact hc
  · rw [hin] at h; exact absurd h (by simp)

/-- The icon-click path of handle_promotion_click. -/
lemma promo_click_icon {B : Type} (api : RulesApi B) (st : GameState B)
    (pos : Int × Int) (pm : Move)
    (hdlg : st.show_promotion_dialog = true)
    (hpend : st.promotion_pending = some pm)
    (htr : move_truthy pm = true)
    (hin : in_dialog_bounds pos = true)
    (hidx : 0 ≤ dialog_piece_index pos ∧ dialog_piece_index pos < 4) :
    handle_promotion_click api st pos =
      (true, reset_promotion_state
        { st with board :=
            if api.is_legal st.board (promotion_choice_move pm pos) then
              api.push st.board (promotion_choice_move pm pos)
            else st.board }) := by
  unfold handle_promotion_click
  rw [hpend]
  dsimp only
  have hg : (!st.show_promotion_dialog || !move_truthy pm) = false := by
    rw [hdlg, htr]; rfl
  rw [hg]
  simp only [Bool.false_eq_true, if_false, if_pos hidx, hin, if_true]

/-- When the dialog flag is down, the mouse handler is exactly the
board-square handling. -/
lemma mousedown_no_dialog {B : Type} (api : RulesApi B) (st : GameState B)
    (pos : Int × Int) (hdlg : st.show_promotion_dialog = false) :
    handle_mousebuttondown api st pos = board_click api st pos := by
  unfold handle_mousebuttondown
  rw [hdlg]
  rfl

/-- When the click is outside the dialog bounds, the mouse handler falls
through to the board-square handling whether or not the dialog is open. -/
lemma mousedown_fallthrough {B : Type} (api : RulesApi B) (st : GameState B)
    (pos : Int × Int) (hout : in_dialog_bounds pos = false) :
    handle_mousebuttondown api st pos = board_click api st pos := by
  unfold handle_mousebuttondown
  by_cases hdlg : st.show_promotion_dialog
  · rw [if_pos hdlg, promo_click_outside api st pos hout]
    rfl
  · rw [if_neg hdlg]
    rfl

/-- The icon-click path of the full mouse handler: the True return of
handle_promotion_click consumes the event. -/
lemma mousedown_icon {B : Type} (api : RulesApi B) (st : GameState B)
    (pos : Int × Int) (pm : Move)
    (hdlg : st.show_promotion_dialog = true)
    (hpend : st.promotion_pending = some pm)
    (htr : move_truthy pm = true)
    (hin : in_dialog_bounds pos = true)
    (hidx : 0 ≤ dialog_piece_index pos ∧ dialog_piece_index pos < 4) :
    handle_mousebuttondown api st pos =
      reset_promotion_state
        { st with board :=
            if api.is_legal st.board (promotion_choice_move pm pos) then
              api.push st.board (promotion_choice_move pm pos)
            else st.board } := by
  unfold handle_mousebuttondown
  rw [if_pos hdlg, promo_click_icon api st pos pm hdlg hpend htr hin hidx]
  rfl

/-- Off-board clicks leave the board handling a no-op. -/
lemma board_click_offboard {B : Type} (api : RulesApi B) (st : GameState B)
    (pos : Int × Int) (h : click_square pos st.white_at_bottom = none) :
    board_click api st pos = st := by
  unfold board_click
  rw [h]

/-- With nothing selected, an in-board click selects the clicked square. -/
lemma board_click_select {B : Type} (api : RulesApi B) (st : GameState B)
    (pos : Int × Int) (sq : Nat)
    (hclick : click_square pos st.white_at_bottom = some sq)
    (hsel : st.selected_square = none) :
    board_click api st pos = { st with selected_square := some sq } := by
  unfold board_click
  rw [hclick, hsel]

/-- The promotion-entry branch: pending move and dialog flag are set, the
selection is left as it was. -/
lemma board_click_promo_entry {B : Type} (api : RulesApi B) (st : GameState B)
    (pos : Int × Int) (sel sq : Nat)
    (hclick : click_square pos st.white_at_bottom = some sq)
    (hsel : st.selected_square = some sel)
    (hprom : is_promotion_move api st.board ⟨sel, sq, none⟩ = true) :
    board_click api st pos =
      { st with promotion_pending := some ⟨sel, sq, none⟩
                show_promotion_dialog := true } := by
  unfold board_click
  rw [hclick, hsel]
  simp only [hprom, if_true]

/-- The legal-move branch: push, clear best_move and the selection. -/
lemma board_click_push {B : Type} (api : RulesApi B) (st : GameState B)
    (pos : Int × Int) (sel sq : Nat)
    (hclick : click_square pos st.white_at_bottom = some sq)
    (hsel : st.selected_square = some sel)
    (hprom : is_promotion_move api st.board ⟨sel, sq, none⟩ = false)
    (hlegal : api.is_legal st.board ⟨sel, sq, none⟩ = true) :
    board_click api st pos =
      { st with board := api.push st.board ⟨sel, sq, none⟩
                best_move := none
                selected_square := none } := by
  unfold board_click
  rw [hclick, hsel]
  simp only [hprom, Bool.false_eq_true, if_false, hlegal, if_true]

/-- The invalid-destination branch: deselect, nothing else changes. -/
lemma board_click_deselect {B : Type} (api : RulesApi B) (st : GameState B)
    (pos : Int × Int) (sel sq : Nat)
    (hclick : click_square pos st.white_at_bottom = some sq)
    (hsel : st.selected_square = some sel)
    (hprom : is_promotion_move api st.board ⟨sel, sq, none⟩ = false)
    (hlegal : api.is_legal st.board ⟨sel, sq, none⟩ = false) :
    board_click api st pos = { st with selected_square := none } := by
  unfold board_click
  rw [hclick, hsel]
  simp only [hprom, Bool.false_eq_true, if_false, hlegal]

/-- A square that holds no piece, or a piece of the side not to move. -/
def bad_square {B : Type} (api : RulesApi B) (b : B) (s : Nat) : Prop :=
  api.piece_at b s = none ∨
  ∃ p, api.piece_at b s = some p ∧ p.color ≠ api.turn b

/-- No legal move originates from an empty or opponent-held square. -/
lemma no_legal_from_bad {B : Type} {api : RulesApi B} (hs : RulesSound api)
    {b : B} {s : Nat} (hbad : bad_square api b s) :
    ∀ m : Move, m.from_square = s → api.is_legal b m = false := by
  intro m hm
  cases hl : api.is_legal b m with
  | false => rfl
  | true =>
    obtain ⟨p, hp, hc⟩ := hs.legal_own b m hl
    rw [hm] at hp
    rcases hbad with h0 | ⟨q, hq, hqc⟩
    · rw [h0] at hp; exact Option.noConfusion hp
    · rw [hq] at hp
      injection hp with hpq
      subst hpq
      exact absurd hc hqc

/-- One board-click step while a bad square or nothing is selected never
changes the board: a selection click only selects, and no move from the bad
square is ever legal. -/
lemma board_click_bad_board {B : Type} {api : RulesApi B} (hs : RulesSound api)
    {b0 : B} {s : Nat} (hbad : bad_square api b0 s)
    (st : GameState B) (pos : Int × Int)
    (hb : st.board = b0)
    (hsel : st.selected_square = none ∨ st.selected_square = some s) :
    (board_click api st pos).board = b0 := by
  unfold board_click
  cases hc : click_square pos st.white_at_bottom with
  | none => exact hb
  | some sq =>
    rcases hsel with h | h <;> rw [h]
    · exact hb
    · dsimp only
      by_cases hpm : is_promotion_move api st.board ⟨s, sq, none⟩ = true
      · rw [if_pos hpm]; exact hb
      · rw [if_neg hpm]
        have hl : api.is_legal st.board ⟨s, sq, none⟩ = false := by
          rw [hb]; exact no_legal_from_bad hs hbad ⟨s, sq, none⟩ rfl
        rw [hl]
        exact hb

/-- One board-click step while the bad square itself is selected: the board
is unchanged, any pending promotion it stores starts at the bad square, and
the resulting selection is the bad square or nothing. -/
lemma board_click_bad_inv {B : Type} {api : RulesApi B} (hs : RulesSound api)
    {b0 : B} {s : Nat} (hbad : bad_square api b0 s)
    (st : GameState B) (pos : Int × Int)
    (hb : st.board = b0)
    (hpend : ∀ pm, st.promotion_pending = some pm → pm.from_square = s)
    (hsel : st.selected_square = some s) :
    (board_click api st pos).board = b0 ∧
    (∀ pm, (board_click api st pos).promotion_pending = some pm →
      pm.from_square = s) ∧
    ((board_click api st pos).selected_square = none ∨
     (board_click api st pos).selected_square = some s) := by
  unfold board_click
  cases hc : click_square pos st.white_at_bottom with
  | none => exact ⟨hb, hpend, Or.inr hsel⟩
  | some sq =>
    rw [hsel]
    dsimp only
    by_cases hpm : is_promotion_move api st.board ⟨s, sq, none⟩ = true
    · rw [if_pos hpm]
      refine ⟨hb, ?_, Or.inr rfl⟩
      intro pm hpmeq
      injection hpmeq with hpmeq
      rw [← hpmeq]
    · rw [if_neg hpm]
      have hl : api.is_legal st.board ⟨s, sq, none⟩ = false := by
        rw [hb]; exact no_legal_from_bad hs hbad ⟨s, sq, none⟩ rfl
      rw [hl]
      exact ⟨hb, hpend, Or.inl rfl⟩

/-- One full mouse-click step under the same circumstances never changes the
board. -/
lemma mousedown_bad_board {B : Type} {api : RulesApi B} (hs : RulesSound api)
    {b0 : B} {s : Nat} (hbad : bad_square api b0 s)
    (st : GameState B) (pos : Int × Int)
    (hb : st.board = b0)
    (hpend : ∀ pm, st.promotion_pending = some pm → pm.from_square = s) :
    (∀ hsel : st.selected_square = none ∨ st.selected_square = some s,
      (handle_mousebuttondown api st pos).board = b0) := by
  intro hsel
  rcases promo_click_cases api st pos with hcase | ⟨pm, hp, hdlg, hin, hi1, hi2, hcase⟩
  · have hstep : handle_mousebuttondown api st pos = board_click api st pos := by
      unfold handle_mousebuttondown
      by_cases hd : st.show_promotion_dialog
      · rw [if_pos hd, hcase]; rfl
      · rw [if_neg hd]; rfl
    rw [hstep]
    exact board_click_bad_board hs hbad st pos hb hsel
  · have hstep : handle_mousebuttondown api st pos = (handle_promotion_click api st pos).2 := by
      unfold handle_mousebuttondown
      rw [if_pos hdlg, hcase]
      rfl
    rw [hstep, hcase]
    have hfrom : (promotion_choice_move pm pos).from_square = s := by
      show pm.from_square = s
      exact hpend pm hp
    have hl : api.is_legal st.board (promotion_choice_move pm pos) = false := by
      rw [hb]; exact no_legal_from_bad hs hbad _ hfrom
    rw [hl]
    simp only [Bool.false_eq_true, if_false, reset_promotion_state]
    exact hb

/-- The RulesSound contract holds of the concrete demo instance. -/
lemma demo_sound : RulesSound demo_api := by
  constructor
  intro b m h
  cases b with
  | start =>
    have h' : start_legal m = true := h
    unfold start_legal at h'
    simp only [Bool.and_eq_true, Bool.or_eq_true, beq_iff_eq,
      decide_eq_true_eq] at h'
    obtain ⟨-, hcases⟩ := h'
    have hw : demo_api.turn DemoBoard.start = true := rfl
    rw [hw]
    rcases hcases with (⟨⟨h8, h16⟩, -⟩ | ⟨h1, -⟩) | ⟨h6, -⟩
    · refine ⟨⟨PAWN, true⟩, ?_, rfl⟩
      show start_piece_at m.from_square = some ⟨PAWN, true⟩
      unfold start_piece_at
      rw [if_neg (by omega), if_pos (by omega)]
    · refine ⟨⟨KNIGHT, true⟩, ?_, rfl⟩
      show start_piece_at m.from_square = some ⟨KNIGHT, true⟩
      rw [h1]
      decide
    · refine ⟨⟨KNIGHT, true⟩, ?_, rfl⟩
      show start_piece_at m.from_square = some ⟨KNIGHT, true⟩
      rw [h6]
      decide
  | promo7 =>
    have h' : promo7_legal m = true := h
    unfold promo7_legal at h'
    simp only [Bool.and_eq_true, Bool.or_eq_true, beq_iff_eq] at h'
    have hw : demo_api.turn DemoBoard.promo7 = true := rfl
    rw [hw]
    rcases h' with ⟨⟨h52, -⟩, -⟩ | ⟨⟨h4, -⟩, -⟩
    · refine ⟨⟨PAWN, true⟩, ?_, rfl⟩
      show promo7_piece_at m.from_square = some ⟨PAWN, true⟩
      rw [h52]
      decide
    · refine ⟨⟨KING, true⟩, ?_, rfl⟩
      show promo7_piece_at m.from_square = some ⟨KING, true⟩
      rw [h4]
      decide
  | pushed b' m' =>
    have h' : demo_legal (DemoBoard.pushed b' m') m = true := h
    simp [demo_legal] at h'

/-! ### Claim C9 -/

/-- C9: for every board and move, is_promotion_move returns true exactly when
the piece at the from-square of the move is a pawn whose color reaches the
farthest rank at the to-square — rank 7 (zero-indexed) for a White pawn,
rank 0 for a Black pawn — and false for every other move. -/
theorem c9_is_promotion_move_iff {B : Type} (api : RulesApi B) (b : B) (m : Move) :
    is_promotion_move api b m = true ↔
      ∃ p, api.piece_at b m.from_square = some p ∧ p.piece_type = PAWN ∧
        ((p.color = true ∧ square_rank m.to_square = 7) ∨
         (p.color = false ∧ square_rank m.to_square = 0)) := by
  unfold is_promotion_move
  cases hp : api.piece_at b m.from_square with
  | none => simp
  | some p =>
    dsimp only
    simp only [Bool.and_eq_true, Bool.or_eq_true, beq_iff_eq, Option.some.injEq]
    constructor
    · rintro ⟨h1, h2⟩
      exact ⟨p, rfl, h1, h2⟩
    · rintro ⟨q, hq, h1, h2⟩
      cases hq
      exact ⟨h1, h2⟩

/-! ### Claim C10 -/

/-- C10: for every pointer position (including positions over the left
evaluation bar, where Python floor division produces file -1, and positions
past the board edges) and either orientation, the coordinate mapping either
yields none (the handler ignores the click) or yields a square whose file
and rank are in 0..7, hence an index in 0..63; moreover every click over the
evaluation bar is ignored. -/
theorem c10_click_mapping_safe :
    (∀ (pos : Int × Int) (wab : Bool) (sq : Nat),
        click_square pos wab = some sq →
          square_file sq < 8 ∧ square_rank sq < 8 ∧ sq < 64) ∧
    (∀ (pos : Int × Int) (wab : Bool), pos.1 < EVAL_BAR_WIDTH →
        click_square pos wab = none) := by
  constructor
  · intro pos wab sq h
    unfold click_square at h
    split at h
    · rename_i hcond
      obtain ⟨h1, h2, h3, h4⟩ := hcond
      injection h with h
      subst h
      unfold chess_square square_file square_rank
      omega
    · exact absurd h (by simp)
  · intro pos wab hx
    have hcol : (pos.1 - EVAL_BAR_WIDTH).fdiv SQUARE_SIZE < 0 := by
      have he : (pos.1 - EVAL_BAR_WIDTH).fdiv SQUARE_SIZE
          = (pos.1 - EVAL_BAR_WIDTH) / SQUARE_SIZE := Int.fdiv_eq_ediv _ (by decide)
      rw [he, SQUARE_SIZE_eq]
      rw [EVAL_BAR_WIDTH_eq] at hx ⊢
      omega
    unfold click_square
    apply if_neg
    intro hcond
    obtain ⟨h1, h2, -, -⟩ := hcond
    cases wab with
    | false =>
      unfold click_col at h2
      simp only [Bool.false_eq_true, if_false] at h2
      omega
    | true =>
      unfold click_col at h1
      simp only [if_true] at h1
      omega

/-- Witness for C10 at concrete inputs: the click at pixel (500, 650) maps
to square 12 (e2), which is within bounds, and a click over the evaluation
bar at (10, 10) is ignored. -/
theorem c10_click_mapping_safe_witness :
    (square_file 12 < 8 ∧ square_rank 12 < 8 ∧ 12 < 64) ∧
    click_square (10, 10) true = none :=
  ⟨c10_click_mapping_safe.1 (500, 650) true 12 (by decide),
   c10_click_mapping_safe.2 (10, 10) true (by decide)⟩

/-! ### Claim C4 -/

/-- C4 counterexample: the claim says engine.quit() is invoked on every exit
path of the main loop, including an exception escaping the loop body; but
the cleanup on lines 403-404 is straight-line code after the while loop with
no try/finally, so on the exception exit path engine.quit() does not run. -/
theorem c4_counterexample : engine_quit_called LoopExit.exception = false := rfl

/-- C4 (amended): engine.quit() is invoked exactly on the normal exit path
of the main loop — the user-initiated quit that sets running = False; an
exception escaping the loop body terminates the process without reaching
engine.quit(). -/
theorem c4_engine_quit_normal_exit : engine_quit_called LoopExit.quit_event = true := rfl

/-! ### Claim C1 -/

/-- C1 counterexample: with the promotion dialog open (reachable state after
clicking e7 then e1 from the start position), the click at (500, 650) lands
outside the dialog (so on none of the four icons), yet it is not a no-op: it
falls through to board-square handling and changes selected_square from
some 52 to none, while the dialog remains open. -/
theorem c1_counterexample :
    trace_dialog_e7e1.show_promotion_dialog = true ∧
    in_dialog_bounds (500, 650) = false ∧
    (handle_mousebuttondown demo_api trace_dialog_e7e1 (500, 650)).selected_square ≠
      trace_dialog_e7e1.selected_square ∧
    (handle_mousebuttondown demo_api trace_dialog_e7e1 (500, 650)).show_promotion_dialog
      = true := by
  decide

/-- C1 (amended): while the promotion dialog is open, a click outside the
dialog bounds is not consumed by the dialog: it falls through to
board-square handling, and it is guaranteed to leave the whole state (the
Position and promotion_pending, show_promotion_dialog, selected_square)
unchanged only when it also maps to no board square; a fallthrough click on
a board square is processed as an ordinary board click. -/
theorem c1_offdialog_offboard_click_noop {B : Type} (api : RulesApi B)
    (st : GameState B) (pos : Int × Int)
    (hdlg : st.show_promotion_dialog = true)
    (hout : in_dialog_bounds pos = false)
    (hoff : click_square pos st.white_at_bottom = none) :
    handle_mousebuttondown api st pos = st := by
  rw [mousedown_fallthrough api st pos hout, board_click_offboard api st pos hoff]

/-- Witness for C1 (amended): with the dialog open, the click at (10, 10)
— over the evaluation bar, outside the dialog — changes nothing. -/
theorem c1_offdialog_offboard_click_noop_witness :
    handle_mousebuttondown demo_api trace_dialog_e7e1 (10, 10) = trace_dialog_e7e1 :=
  c1_offdialog_offboard_click_noop demo_api trace_dialog_e7e1 (10, 10)
    (by decide) (by decide) (by decide)

/-! ### Claim C2 -/

/-- C2 counterexample: in the reachable state after clicking e7 then e1 from
the start position, the promotion dialog is open and selected_square is
still some 52, refuting the claimed invariant that an open dialog forces a
null selection. -/
theorem c2_counterexample :
    trace_dialog_e7e1.show_promotion_dialog = true ∧
    trace_dialog_e7e1.selected_square = some 52 := by
  decide

/-- C2 (amended): the promotion-entry transition sets show_promotion_dialog
without touching selected_square, so immediately after the dialog opens the
selection still holds the pending from-square; selected_square is only
guaranteed null again after reset_promotion_state runs. -/
theorem c2_dialog_entry_keeps_selection {B : Type} (api : RulesApi B)
    (st : GameState B) (pos : Int × Int) (sel sq : Nat)
    (hdlg : st.show_promotion_dialog = false)
    (hsel : st.selected_square = some sel)
    (hclick : click_square pos st.white_at_bottom = some sq)
    (hprom : is_promotion_move api st.board ⟨sel, sq, none⟩ = true) :
    (handle_mousebuttondown api st pos).show_promotion_dialog = true ∧
    (handle_mousebuttondown api st pos).selected_square = some sel := by
  rw [mousedown_no_dialog api st pos hdlg,
    board_click_promo_entry api st pos sel sq hclick hsel hprom]
  exact ⟨rfl, hsel⟩

/-- Witness for C2 (amended): clicking e1 with e7 selected opens the dialog
and leaves square 52 selected. -/
theorem c2_dialog_entry_keeps_selection_witness :
    (handle_mousebuttondown demo_api trace_sel_e7 (500, 750)).show_promotion_dialog = true ∧
    (handle_mousebuttondown demo_api trace_sel_e7 (500, 750)).selected_square = some 52 :=
  c2_dialog_entry_keeps_selection demo_api trace_sel_e7 (500, 750) 52 4
    (by decide) (by decide) (by decide) (by decide)

/-! ### Claim C3 -/

/-- C3 counterexample: completing a promotion through the dialog pushes the
move onto the Position but does not clear best_move.  In the reachable
state promo_dialog_ticked (dialog open for e7e8, best_move = e1d1 from the
last analysis tick), clicking the Queen icon at (230, 400) pushes e7e8q,
yet best_move still holds e1d1 — a move of the previous Position — refuting
both the clearing claim and the legality-in-current-Position consequence. -/
theorem c3_counterexample :
    (handle_mousebuttondown demo_api promo_dialog_ticked (230, 400)).board =
      DemoBoard.pushed DemoBoard.promo7 ⟨52, 60, some QUEEN⟩ ∧
    (handle_mousebuttondown demo_api promo_dialog_ticked (230, 400)).best_move =
      some ⟨4, 3, none⟩ := by
  decide

/-- C3 (amended): best_move is set to null in the same transition whenever
the board-click handler pushes a regular move, but a promotion completed
through handle_promotion_click pushes the move while leaving best_move
untouched, so after a completed promotion best_move can refer to a move of
the previous Position. -/
theorem c3_best_move_clearing {B : Type} (api : RulesApi B) :
    (∀ (st : GameState B) (pos : Int × Int) (pm : Move),
      st.show_promotion_dialog = true → st.promotion_pending = some pm →
      move_truthy pm = true → in_dialog_bounds pos = true →
      0 ≤ dialog_piece_index pos ∧ dialog_piece_index pos < 4 →
      (handle_mousebuttondown api st pos).best_move = st.best_move) ∧
    (∀ (st : GameState B) (pos : Int × Int) (sel sq : Nat),
      st.show_promotion_dialog = false → st.selected_square = some sel →
      click_square pos st.white_at_bottom = some sq →
      is_promotion_move api st.board ⟨sel, sq, none⟩ = false →
      api.is_legal st.board ⟨sel, sq, none⟩ = true →
      (handle_mousebuttondown api st pos).best_move = none) := by
  constructor
  · intro st pos pm hdlg hpend htr hin hidx
    rw [mousedown_icon api st pos pm hdlg hpend htr hin hidx]
    rfl
  · intro st pos sel sq hdlg hsel hclick hprom hlegal
    rw [mousedown_no_dialog api st pos hdlg,
      board_click_push api st pos sel sq hclick hsel hprom hlegal]

/-- Witness for C3 (amended): the promotion completion preserves best_move,
and the regular push e2e4 clears it. -/
theorem c3_best_move_clearing_witness :
    (handle_mousebuttondown demo_api promo_dialog_ticked (230, 400)).best_move =
      promo_dialog_ticked.best_move ∧
    (handle_mousebuttondown demo_api trace_sel_e2 (500, 460)).best_move = none :=
  ⟨(c3_best_move_clearing demo_api).1 promo_dialog_ticked (230, 400) ⟨52, 60, none⟩
      (by decide) (by decide) (by decide) (by decide) (by decide),
   (c3_best_move_clearing demo_api).2 trace_sel_e2 (500, 460) 12 28
      (by decide) (by decide) (by decide) (by decide) (by decide)⟩

/-! ### Claim C5 -/

/-- C5 counterexample: in the Idle state of the start position, clicking the
empty square e5 (square 36) is claimed to be a no-op, but the code selects
it: selection does not require an own-side piece. -/
theorem c5_counterexample :
    demo_api.piece_at DemoBoard.start 36 = none ∧
    (handle_mousebuttondown demo_api (initial_state DemoBoard.start)
      (500, 350)).selected_square = some 36 := by
  decide

/-- C5 (amended): in the Idle state, a click on any board square selects
that square regardless of its contents (empty, opponent or own piece), and
a click outside the board leaves the state unchanged. -/
theorem c5_idle_click_selects {B : Type} (api : RulesApi B)
    (st : GameState B) (pos : Int × Int)
    (hsel : st.selected_square = none)
    (hdlg : st.show_promotion_dialog = false) :
    (∀ sq, click_square pos st.white_at_bottom = some sq →
      handle_mousebuttondown api st pos = { st with selected_square := some sq }) ∧
    (click_square pos st.white_at_bottom = none →
      handle_mousebuttondown api st pos = st) := by
  constructor
  · intro sq hclick
    rw [mousedown_no_dialog api st pos hdlg,
      board_click_select api st pos sq hclick hsel]
  · intro hclick
    rw [mousedown_no_dialog api st pos hdlg,
      board_click_offboard api st pos hclick]

/-- Witness for C5 (amended): clicking the empty square e5 from the initial
state selects it. -/
theorem c5_idle_click_selects_witness :
    handle_mousebuttondown demo_api (initial_state DemoBoard.start) (500, 350) =
      { initial_state DemoBoard.start with selected_square := some 36 } :=
  (c5_idle_click_selects demo_api (initial_state DemoBoard.start) (500, 350)
    (by decide) (by decide)).1 36 (by decide)

/-! ### Claim C6 -/

/-- C6 counterexample: the interaction begins by selecting square 52 (e7, a
Black pawn — an opponent piece, since White is to move), yet a later click
of the same interaction sequence mutates the Position: after the clicks
e7, e2, e2, e4 the board has e2e4 pushed, because the failed move attempt
merely deselects and the following clicks form a fresh selection. -/
theorem c6_counterexample :
    trace_sel_e7.selected_square = some 52 ∧
    demo_api.piece_at DemoBoard.start 52 = some ⟨PAWN, false⟩ ∧
    demo_api.turn DemoBoard.start = true ∧
    trace4_pushed.board = DemoBoard.pushed DemoBoard.start ⟨12, 28, none⟩ := by
  decide

/-- C6 (amended): after selecting a square holding no piece or an opponent
piece, the selection click and the next two clicks never mutate the
Position (whatever they are, including clicks that open a promotion dialog
or resolve one); a third subsequent click can mutate it, because by then
deselection and reselection can have formed a fresh interaction. -/
theorem c6_bad_selection_no_mutation {B : Type} (api : RulesApi B)
    (hs : RulesSound api) (st : GameState B)
    (pos1 pos2 pos3 : Int × Int) (s : Nat)
    (hsel : st.selected_square = none)
    (hdlg : st.show_promotion_dialog = false)
    (hpend : st.promotion_pending = none)
    (hclick : click_square pos1 st.white_at_bottom = some s)
    (hbad : bad_square api st.board s) :
    (handle_mousebuttondown api st pos1).board = st.board ∧
    (handle_mousebuttondown api (handle_mousebuttondown api st pos1) pos2).board
      = st.board ∧
    (handle_mousebuttondown api
      (handle_mousebuttondown api (handle_mousebuttondown api st pos1) pos2)
      pos3).board = st.board := by
  have hst1 : handle_mousebuttondown api st pos1 = { st with selected_square := some s } := by
    rw [mousedown_no_dialog api st pos1 hdlg,
      board_click_select api st pos1 s hclick hsel]
  have hpend1 : ∀ pm, ({ st with selected_square := some s } : GameState B).promotion_pending
      = some pm → pm.from_square = s := by
    intro pm hpm
    rw [show ({ st with selected_square := some s } : GameState B).promotion_pending
        = st.promotion_pending from rfl, hpend] at hpm
    exact Option.noConfusion hpm
  refine ⟨?_, ?_, ?_⟩
  · rw [hst1]
  · rw [hst1]
    exact mousedown_bad_board hs hbad _ pos2 rfl hpend1 (Or.inr rfl)
  · rw [hst1]
    have hstep2 : handle_mousebuttondown api { st with selected_square := some s } pos2
        = board_click api { st with selected_square := some s } pos2 :=
      mousedown_no_dialog api _ pos2 hdlg
    rw [hstep2]
    obtain ⟨hb2, hpend2, hsel2⟩ :=
      board_click_bad_inv hs hbad { st with selected_square := some s } pos2 rfl hpend1 rfl
    exact mousedown_bad_board hs hbad _ pos3 hb2 hpend2 hsel2

/-- Witness for C6 (amended): e7 is a bad selection from the start position
and the two clicks that follow it in the counterexample trace indeed leave
the board untouched. -/
theorem c6_bad_selection_no_mutation_witness :
    (handle_mousebuttondown demo_api (initial_state DemoBoard.start) (500, 150)).board
      = DemoBoard.start ∧
    (handle_mousebuttondown demo_api (handle_mousebuttondown demo_api
      (initial_state DemoBoard.start) (500, 150)) (500, 650)).board = DemoBoard.start ∧
    (handle_mousebuttondown demo_api (handle_mousebuttondown demo_api
      (handle_mousebuttondown demo_api (initial_state DemoBoard.start) (500, 150))
      (500, 650)) (500, 650)).board = DemoBoard.start :=
  c6_bad_selection_no_mutation demo_api demo_sound (initial_state DemoBoard.start)
    (500, 150) (500, 650) (500, 650) 52 rfl rfl rfl (by decide)
    (Or.inr ⟨⟨PAWN, false⟩, by decide, by decide⟩)

/-! ### Claim C7 -/

/-- C7: with the promotion dialog open and a truthy pending move, a click on
one of the four promotion icons (inside the dialog bounds with piece index
0..3) builds the full Move with the chosen piece kind, applies it to the
Position exactly when it is legal (otherwise the Position is unchanged),
and in the same single transition clears promotion_pending,
show_promotion_dialog and selected_square together, returning to Idle. -/
theorem c7_promotion_icon_click {B : Type} (api : RulesApi B)
    (st : GameState B) (pos : Int × Int) (pm : Move)
    (hdlg : st.show_promotion_dialog = true)
    (hpend : st.promotion_pending = some pm)
    (htr : move_truthy pm = true)
    (hin : in_dialog_bounds pos = true)
    (hidx : 0 ≤ dialog_piece_index pos ∧ dialog_piece_index pos < 4) :
    handle_mousebuttondown api st pos =
      { st with
        board := if api.is_legal st.board (promotion_choice_move pm pos) then
                   api.push st.board (promotion_choice_move pm pos)
                 else st.board
        promotion_pending := none
        show_promotion_dialog := false
        selected_square := none } := by
  rw [mousedown_icon api st pos pm hdlg hpend htr hin hidx]
  rfl

/-- Witness for C7: in the reachable dialog state for the e7e8 promotion,
clicking the Queen icon at (230, 400) pushes e7e8q and resets the three
promotion fields together. -/
theorem c7_promotion_icon_click_witness :
    handle_mousebuttondown demo_api promo_dialog (230, 400) =
      { board := DemoBoard.pushed DemoBoard.promo7 ⟨52, 60, some QUEEN⟩
        selected_square := none
        promotion_pending := none
        show_promotion_dialog := false
        best_move := none
        aggressive_mate := false
        white_at_bottom := true
        evaluation := 0 } := by
  have h := c7_promotion_icon_click demo_api promo_dialog (230, 400) ⟨52, 60, none⟩
    (by decide) (by decide) (by decide) (by decide) (by decide)
  rw [h]
  decide

/-! ### Claim C8 -/

/-- C8: from a state with square sel selected and no dialog, clicking a
square sq such that Move(sel, sq) is legal and not promotion-shaped pushes
the move onto the Position, sets best_move to null and clears the
selection, returning to Idle. -/
theorem c8_legal_move_click {B : Type} (api : RulesApi B)
    (st : GameState B) (pos : Int × Int) (sel sq : Nat)
    (hdlg : st.show_promotion_dialog = false)
    (hsel : st.selected_square = some sel)
    (hclick : click_square pos st.white_at_bottom = some sq)
    (hprom : is_promotion_move api st.board ⟨sel, sq, none⟩ = false)
    (hlegal : api.is_legal st.board ⟨sel, sq, none⟩ = true) :
    handle_mousebuttondown api st pos =
      { st with board := api.push st.board ⟨sel, sq, none⟩
                best_move := none
                selected_square := none } := by
  rw [mousedown_no_dialog api st pos hdlg,
    board_click_push api st pos sel sq hclick hsel hprom hlegal]

/-- Witness for C8, which is exactly the specification scenario: from the
starting position, clicking e2 (pixel (500, 650)) and then e4 (pixel
(500, 460)) leaves the Position with e2e4 played, best_move null, nothing
selected and no dialog — the Idle state. -/
theorem c8_legal_move_click_witness :
    handle_mousebuttondown demo_api trace_sel_e2 (500, 460) =
      { board := DemoBoard.pushed DemoBoard.start ⟨12, 28, none⟩
        selected_square := none
        promotion_pending := none
        show_promotion_dialog := false
        best_move := none
        aggressive_mate := false
        white_at_bottom := true
        evaluation := 0 } := by
  have h := c8_legal_move_click demo_api trace_sel_e2 (500, 460) 12 28
    (by decide) (by decide) (by decide) (by decide) (by decide)
  rw [h]
  decide
